import Mathlib

/-!
# dropboxer: a verification development

Shallow embedding of `src/dropboxer.go` (the functions `list`, `search`,
`upload_file`, `upload_folder`, `createRemoteFolder`) and theorems about it.

Modelling conventions.

* Go strings are Lean `String`s; `fmt.Sprintf` with `%s` verbs is string
  concatenation and `%d` on an `int` is `toString` on an `Int`.
* A Go `error` value is represented by its message (`GoError`); a Go result pair
  `(error, bool)` is `Option GoError × Bool`, with `none` for `nil`.
* The HTTP client together with the remote store is a state machine
  `World.Do : σ → Request → Except GoError Response × σ` over an arbitrary
  state type `σ`; `Except.error` is the `err != nil` outcome of `client.Do`.
* `encoding/json` decoding, `os.Open` and the remote store are external to the
  repository and are taken as parameters (fields of `World`).
* `http.NewRequest` is called with the constant method `POST` and constant,
  well-formed URLs only, so its error branch is unreachable and is not modelled.
* Every function returns, next to its Go result, the successor state of the
  remote and the list of effects (`Event`s) it performed, in program order.
-/

namespace Dropboxer

/-! ## Constants and data model (lines 20-73) -/

/-- Message of a Go `error` value. -/
abbrev GoError := String

def URL : String := "https://api.dropboxapi.com/2/files"
def UploadURL : String := "https://content.dropboxapi.com/2/files"
def BEARER : String := "some key here"
def BASEFOLDER : String := "some base folder here"

structure Folder where
  Tag : String
  Name : String
  PathLower : String
  PathDisplay : String
  ID : String
deriving DecidableEq, Repr

structure Folders where
  Entries : List Folder
  Cursor : String
  More : Bool
deriving DecidableEq, Repr

structure File where
  Name : String
  PahtLower : String
  PathDisplay : String
  ID : String
  ClientModified : String
  ServerModified : String
  Rev : String
  Size : Int
  ContentHash : String
deriving DecidableEq, Repr

/-- The struct `Match`; its only field is `Metadata.PathDisplay`. -/
structure Match where
  PathDisplay : String
deriving DecidableEq, Repr

structure Matches where
  Matches : List Match
  More : Bool
  Start : Int
deriving DecidableEq, Repr

/-! ## HTTP exchange -/

/-- Body of an outgoing request: a byte buffer, or the opened local file. -/
inductive ReqBody where
  | bytes (s : String)
  | file (path : String)
deriving DecidableEq, Repr

structure Request where
  method : String
  url : String
  headers : List (String × String)
  body : ReqBody
deriving DecidableEq, Repr

structure Response where
  StatusCode : Int
  Body : String
deriving DecidableEq, Repr

/-- Observable effects, in program order. -/
inductive Event where
  /-- One `client.Do(req)` call together with what it returned. -/
  | http (req : Request) (res : Except GoError Response)
  /-- One logger call (`level` is `info` or `warn`). -/
  | log (level : String) (msg : String)
  /-- One `fmt.Println`. -/
  | print (line : String)
  /-- One `ioutil.ReadDir(path)` call. -/
  | readDir (path : String)
  /-- One `go func(file, localFolder, remoteFolder, ch)` statement. -/
  | spawn (file : String) (localFolder : String) (remoteFolder : String)

/-- Everything outside the repository that the functions talk to. -/
structure World (σ : Type) where
  /-- The call `client.Do`: the remote answers a request and moves to a new state. -/
  Do : σ → Request → Except GoError Response × σ
  /-- The call `os.Open`: `none` when the file opens, else the error. -/
  Open : String → Option GoError
  /-- Decoding of a response body into `Folders`. -/
  decodeFolders : String → Except GoError Folders
  /-- Decoding of a response body into `Matches`. -/
  decodeMatches : String → Except GoError Matches
  /-- Decoding of a response body into `File`. -/
  decodeFile : String → Except GoError File

/-- The two headers every request carries (lines 108-109, 145-146, 194-195, 258-259). -/
def jsonHeaders : List (String × String) :=
  [("Content-type", "application/json"), ("Authorization", "Bearer " ++ BEARER)]

/-- Result triple of a modelled call: Go result, successor state, effects. -/
abbrev Outcome (σ : Type) (α : Type) := α × σ × List Event

/-! ## `list` (lines 97-127) -/

/-- Lines 98-100: a leading slash is added to paths longer than one byte. -/
def listPath (path : String) : String :=
  if !("/".isPrefixOf path) && path.utf8ByteSize > 1 then "/" ++ path else path

/-- The request built at lines 101-109; `json.Marshal` of a one-key string map
(the escaping of special characters inside the value is not modelled). -/
def listRequest (path : String) : Request :=
  ⟨"POST", URL ++ "/list_folder", jsonHeaders,
    .bytes ("\x7b\"path\":\"" ++ listPath path ++ "\"\x7d")⟩

def list {σ : Type} (w : World σ) (s : σ) (path : String) : Outcome σ (Option GoError × Bool) :=
  let req := listRequest path
  match w.Do s req with
  | (.error err, s1) => ((some err, false), s1, [.http req (.error err)])
  | (.ok resp, s1) =>
    match w.decodeFolders resp.Body with
    | .error err => ((some err, false), s1, [.http req (.ok resp)])
    | .ok result =>
      ((none, true), s1, .http req (.ok resp) :: result.Entries.map (fun entry => .print entry.Name))

/-! ## `search` (lines 129-177) -/

/-- Lines 130-132: the search scope sent to the remote. -/
def searchScope (path : String) : String :=
  if path ≠ "" then "/" ++ path else path

/-- Lines 166-170: the string each match's display path is compared with. -/
def searchTarget (path file : String) : String :=
  let path := searchScope path
  if path = "" then file else path ++ "/" ++ file

/-- The request built at lines 133-146. -/
def searchRequest (path file : String) : Request :=
  ⟨"POST", URL ++ "/search", jsonHeaders,
    .bytes ("\x7b\"path\": \"" ++ searchScope path ++ "\", \"query\": \"" ++ file
      ++ "\", \"mode\": \x7b\".tag\":\"filename\"\x7d\x7d")⟩

/-- Lines 171-175: linear scan for an exactly equal display path. -/
def scanMatches (target : String) : List Match → Bool
  | [] => false
  | m :: rest => if m.PathDisplay = target then true else scanMatches target rest

def search {σ : Type} (w : World σ) (s : σ) (path file : String) : Outcome σ Bool :=
  let req := searchRequest path file
  match w.Do s req with
  | (.error err, s1) => (false, s1, [.http req (.error err)])
  | (.ok resp, s1) =>
    if resp.StatusCode ≠ 200 then
      (false, s1, [.http req (.ok resp),
        .log "warn" ("Search failed. Result code is " ++ toString resp.StatusCode
          ++ " due to: " ++ resp.Body)])
    else
      match w.decodeMatches resp.Body with
      | .error _ => (false, s1, [.http req (.ok resp)])
      | .ok result => (scanMatches (searchTarget path file) result.Matches, s1, [.http req (.ok resp)])

/-! ## `upload_file` (lines 179-217) -/

/-- Lines 196-200: the path written into the `Dropbox-API-Arg` header. -/
def uploadPath (remotePath fileName : String) : String :=
  if remotePath = "" then "/" ++ fileName else "/" ++ remotePath ++ "/" ++ fileName

/-- The request built at lines 190-200. -/
def uploadRequest (fileName localPath remotePath : String) : Request :=
  ⟨"POST", UploadURL ++ "/upload",
    [("Content-type", "application/octet-stream"), ("Authorization", "Bearer " ++ BEARER),
     ("Dropbox-API-Arg", "\x7b\"path\": \"" ++ uploadPath remotePath fileName ++ "\"\x7d")],
    .file (localPath ++ "/" ++ fileName)⟩

/-- The error built by `fmt.Errorf` at lines 208 and 270. -/
def statusError (resp : Response) : GoError :=
  "Result code is " ++ toString resp.StatusCode ++ " due to: " ++ resp.Body

def upload_file {σ : Type} (w : World σ) (s : σ) (fileName localPath remotePath : String) :
    Outcome σ (Option GoError × Bool) :=
  match w.Open (localPath ++ "/" ++ fileName) with
  | some err => ((some err, false), s, [])
  | none =>
    match search w s remotePath fileName with
    | (true, s1, t1) =>
      ((none, true), s1, t1 ++ [.log "info"
        ("File " ++ BASEFOLDER ++ "/" ++ remotePath ++ "/" ++ fileName ++ " exists. Skipping")])
    | (false, s1, t1) =>
      let req := uploadRequest fileName localPath remotePath
      match w.Do s1 req with
      | (.error err, s2) => ((some err, false), s2, t1 ++ [.http req (.error err)])
      | (.ok resp, s2) =>
        if resp.StatusCode ≠ 200 then
          ((some (statusError resp), false), s2, t1 ++ [.http req (.ok resp)])
        else
          match w.decodeFile resp.Body with
          | .error err => ((some err, false), s2, t1 ++ [.http req (.ok resp)])
          | .ok result =>
            ((none, true), s2, t1 ++ [.http req (.ok resp), .log "info"
              ("File " ++ fileName ++ " uploaded to \"" ++ result.PathDisplay
                ++ "\". Size is " ++ toString result.Size)])

/-! ## `createRemoteFolder` (lines 255-274) -/

/-- Line 256: the remote path named in the request body. -/
def createPath (localFolder remoteFolder : String) : String :=
  "/" ++ remoteFolder ++ "/" ++ localFolder

/-- The create-folder request for a remote path (lines 256-259). -/
def createRequest (remotePath : String) : Request :=
  ⟨"POST", URL ++ "/create_folder_v2", jsonHeaders,
    .bytes ("\x7b\"path\": \"" ++ remotePath ++ "\"\x7d")⟩

def createRemoteFolder {σ : Type} (w : World σ) (s : σ) (localFolder remoteFolder : String) :
    Outcome σ (Option GoError × Bool) :=
  let req := createRequest (createPath localFolder remoteFolder)
  match w.Do s req with
  | (.error err, s1) => ((some err, false), s1, [.http req (.error err)])
  | (.ok resp, s1) =>
    if resp.StatusCode ≠ 200 ∧ resp.StatusCode ≠ 409 then
      ((some (statusError resp), false), s1, [.http req (.ok resp)])
    else
      ((none, true), s1, [.http req (.ok resp)])

/-! ## `upload_folder` (lines 219-253) -/

mutual
/-- What `ioutil.ReadDir` returns for a local directory: an error, or its listing. -/
inductive Dir where
  | unreadable (err : GoError) : Dir
  | listing (files : Listing) : Dir
/-- A slice of `os.FileInfo`: `file` and `dir` put one entry in front of the
remaining entries. A directory entry carries what `ioutil.ReadDir` returns for it. -/
inductive Listing where
  | nil : Listing
  | file (name : String) (rest : Listing) : Listing
  | dir (name : String) (sub : Dir) (rest : Listing) : Listing
end

namespace Listing

/-- Number of entries, `len(files)`. -/
def length : Listing → Nat
  | .nil => 0
  | .file _ rest => rest.length + 1
  | .dir _ _ rest => rest.length + 1

/-- Names of the entries for which `IsDir()` is false, in order. -/
def fileNames : Listing → List String
  | .nil => []
  | .file name rest => name :: rest.fileNames
  | .dir _ _ rest => rest.fileNames

/-- Names of the entries for which `IsDir()` is true, in order. -/
def dirNames : Listing → List String
  | .nil => []
  | .file _ rest => rest.dirNames
  | .dir name _ rest => name :: rest.dirNames

/-- Concatenation of two listings. -/
def append : Listing → Listing → Listing
  | .nil, l => l
  | .file name rest, l => .file name (rest.append l)
  | .dir name sub rest, l => .dir name sub (rest.append l)

end Listing

/-- Arguments of one `go func(file, localFolder, remoteFolder, ch)` statement. -/
structure Task where
  file : String
  localFolder : String
  remoteFolder : String
deriving DecidableEq, Repr

/-- The message sent on `ch` at line 243 (the elapsed seconds are left out). -/
def signal (file : String) : String := "uploading " ++ file ++ " finished"

/-- One run of the goroutine of lines 236-244. -/
structure Run where
  /-- The arguments the goroutine was started with. -/
  task : Task
  /-- What its call of `upload_file` returned (the variables `err`, `ok` of line 238). -/
  result : Option GoError × Bool
  /-- Its effects, in program order. -/
  effects : List Event
  /-- The messages it sent on `ch`. -/
  sent : List String

/-- Body of the goroutine of lines 236-244, run against the remote state `s` it
observes. -/
def uploadTask {σ : Type} (w : World σ) (s : σ) (t : Task) : Run :=
  match upload_file w s t.file t.localFolder t.remoteFolder with
  | ((err, false), _, tr) =>
    ⟨t, (err, false),
      tr ++ [.log "info" ("Coldn't upload file " ++ t.file ++ " to remote folder "
        ++ t.remoteFolder ++ "."), .log "warn" (err.getD "<nil>")],
      [signal t.file]⟩
  | ((err, true), _, tr) => ⟨t, (err, true), tr, [signal t.file]⟩

/-- State of the loop of lines 226-246 when it is left. -/
structure Loop (σ : Type) where
  /-- Is false when a recursive call never came back. -/
  returned : Bool
  state : σ
  /-- Effects of the loop itself, in program order. -/
  trace : List Event
  numberOfFiles : Int
  /-- Goroutines started by this loop (not by recursive calls), in order. -/
  spawned : List Task

/-- One call of `upload_folder`. -/
structure Walk (σ : Type) where
  /-- The Go result; `none` when the call blocks forever on `ch`. -/
  ret : Option (Option GoError × Bool)
  state : σ
  /-- Effects of the walking goroutine, in program order. -/
  trace : List Event
  /-- Value of `numberOfFiles` at line 247. -/
  numberOfFiles : Int
  /-- Goroutines started at this level, in order. -/
  spawned : List Task
  /-- The runs of those goroutines, each against the remote state it observes. -/
  runs : List Run
  /-- Messages sent on `ch` by the goroutines of this level. -/
  sent : List String
  /-- Number of completed receive operations of lines 247-250. -/
  received : Nat

/-- The remote state observed by each concurrently running upload. Uploads run
concurrently with the walk, so what they observe is not determined by the
walk; it is an arbitrary parameter. -/
abbrev View (σ : Type) := Task → σ

mutual
/-- The function `upload_folder`, applied to what `ioutil.ReadDir(localFolder)`
returns. The channel `ch` is unbuffered: the receive loop of lines 247-250
completes exactly when at least `numberOfFiles` messages are sent on it. -/
def upload_folder {σ : Type} (w : World σ) (view : View σ) (s : σ)
    (localFolder remoteFolder : String) : Dir → Walk σ
  | .unreadable err => ⟨some (some err, false), s, [.readDir localFolder], 0, [], [], [], 0⟩
  | .listing files =>
    let l := upload_folder_loop w view localFolder remoteFolder s (files.length : Int) files
    let runs := l.spawned.map (fun t => uploadTask w (view t) t)
    let sent := l.spawned.flatMap (fun t => (uploadTask w (view t) t).sent)
    if l.returned = true ∧ l.numberOfFiles ≤ (sent.length : Int) then
      ⟨some (none, true), l.state, .readDir localFolder :: l.trace, l.numberOfFiles,
        l.spawned, runs, sent, l.numberOfFiles.toNat⟩
    else
      ⟨none, l.state, .readDir localFolder :: l.trace, l.numberOfFiles, l.spawned, runs, sent,
        if l.returned = true then sent.length else 0⟩
/-- The loop of lines 226-246 over the entries still to be visited. -/
def upload_folder_loop {σ : Type} (w : World σ) (view : View σ)
    (localFolder remoteFolder : String) (s : σ) (numberOfFiles : Int) : Listing → Loop σ
  | .nil => ⟨true, s, [], numberOfFiles, []⟩
  | .file name rest =>
    let r := upload_folder_loop w view localFolder remoteFolder s numberOfFiles rest
    ⟨r.returned, r.state, .spawn name localFolder remoteFolder :: r.trace, r.numberOfFiles,
      ⟨name, localFolder, remoteFolder⟩ :: r.spawned⟩
  | .dir name sub rest =>
    match createRemoteFolder w s name remoteFolder with
    | ((_, true), s1, t1) =>
      let d := upload_folder w view s1 (localFolder ++ "/" ++ name)
        (remoteFolder ++ "/" ++ name) sub
      match d.ret with
      | none => ⟨false, d.state, t1 ++ d.trace, numberOfFiles - 1, []⟩
      | some _ =>
        let r := upload_folder_loop w view localFolder remoteFolder d.state
          (numberOfFiles - 1) rest
        ⟨r.returned, r.state, t1 ++ d.trace ++ r.trace, r.numberOfFiles, r.spawned⟩
    | ((err, false), s1, t1) =>
      let r := upload_folder_loop w view localFolder remoteFolder s1 (numberOfFiles - 1) rest
      ⟨r.returned, r.state,
        t1 ++ [.log "info" ("Couldn't create a remote folder " ++ remoteFolder ++ "/" ++ name),
               .log "warn" (err.getD "<nil>")] ++ r.trace,
        r.numberOfFiles, r.spawned⟩
end

/-! ## Concrete remotes used to evaluate the definitions -/

/-- A remote that replays a fixed script of answers, whatever the request. -/
def replay : List (Except GoError Response) → Request →
    Except GoError Response × List (Except GoError Response)
  | [], _ => (.error "connection refused", [])
  | r :: rest, _ => (r, rest)

/-- Body of an error answer of the remote (a JSON object). -/
def errorBody : String := "\x7b\"error_summary\": \"path/not_found/\"\x7d"

/-- Body of a search answer with the single match `/backups/a.txt`. -/
def matchBody : String :=
  "\x7b\"matches\": [\x7b\"metadata\": \x7b\"path_display\": \"/backups/a.txt\"\x7d\x7d]\x7d"

/-- Body of a search answer with the single match `/a.txt`. -/
def rootMatchBody : String :=
  "\x7b\"matches\": [\x7b\"metadata\": \x7b\"path_display\": \"/a.txt\"\x7d\x7d]\x7d"

/-- A world over `replay` in which every file opens. A JSON object without the
key `entries` decodes to an empty `Folders` value, as `encoding/json` does. -/
def replayWorld : World (List (Except GoError Response)) where
  Do := replay
  Open := fun _ => none
  decodeFolders := fun b =>
    if b = errorBody then .ok ⟨[], "", false⟩ else .error "invalid character"
  decodeMatches := fun b =>
    if b = matchBody then .ok ⟨[⟨"/backups/a.txt"⟩], false, 0⟩
    else if b = rootMatchBody then .ok ⟨[⟨"/a.txt"⟩], false, 0⟩
    else .error "invalid character"
  decodeFile := fun _ => .error "invalid character"

/-- A remote that stores the set of created folders: creating a folder answers
200 the first time and 409 when the path is already there. -/
def folderStore : World (List ReqBody) where
  Do := fun s req =>
    if req.url = URL ++ "/create_folder_v2" then
      if req.body ∈ s then (.ok ⟨409, errorBody⟩, s) else (.ok ⟨200, "\x7b\x7d"⟩, req.body :: s)
    else (.error "connection refused", s)
  Open := fun _ => none
  decodeFolders := fun _ => .error "invalid character"
  decodeMatches := fun _ => .error "invalid character"
  decodeFile := fun _ => .error "invalid character"

/-- Requests of a trace that went to the upload endpoint. -/
def uploadCalls : List Event → List Request
  | [] => []
  | .http req _ :: rest =>
    if req.url = UploadURL ++ "/upload" then req :: uploadCalls rest else uploadCalls rest
  | _ :: rest => uploadCalls rest

/-- A local tree `A/B/C` with one file at each level, next to a file at the top. -/
def nestedABC : Dir :=
  .listing (.file "top.txt" (.dir "A" (.listing (.file "a.txt" (.dir "B"
    (.listing (.file "b.txt" (.dir "C" (.listing (.file "c.txt" .nil)) .nil))) .nil))) .nil))

/-- The folder store, except that creating `/backups/bad` is answered with 500. -/
def pickyStore : World (List ReqBody) where
  Do := fun s req =>
    if req.body = (createRequest "/backups/bad").body then (.ok ⟨500, errorBody⟩, s)
    else folderStore.Do s req
  Open := fun _ => none
  decodeFolders := fun _ => .error "invalid character"
  decodeMatches := fun _ => .error "invalid character"
  decodeFile := fun _ => .error "invalid character"

/-- A listing of five files. -/
def fiveFiles : Listing :=
  .file "a.txt" (.file "b.txt" (.file "c.txt" (.file "d.txt" (.file "e.txt" .nil))))

/-- The world `w`, except that `os.Open` fails with `err` on the paths picked by
`fails`: the uploads of those files fail. -/
def sabotage {σ : Type} (w : World σ) (fails : String → Bool) (err : GoError) : World σ :=
  ⟨w.Do, fun path => if fails path = true then some err else w.Open path,
    w.decodeFolders, w.decodeMatches, w.decodeFile⟩

/-- A world over `replay` in which every file opens, every search answer decodes to
an empty match list and every upload answer to a `File` value. -/
def calmWorld : World (List (Except GoError Response)) where
  Do := replay
  Open := fun _ => none
  decodeFolders := fun _ => .error "invalid character"
  decodeMatches := fun _ => .ok ⟨[], false, 0⟩
  decodeFile := fun _ => .ok ⟨"", "", "/backups/file", "", "", "", "", 1, ""⟩

/-- Every upload observes a remote that answers 200 to its search and to its upload. -/
def calmView : View (List (Except GoError Response)) :=
  fun _ => [.ok ⟨200, "\x7b\x7d"⟩, .ok ⟨200, "\x7b\x7d"⟩]

/-! ## Vocabulary of the ordering statements -/

/-- A name without a slash, as `os.FileInfo.Name()` returns (a base name). -/
def slashFree (name : String) : Bool := !name.data.contains '/'

mutual
/-- Every entry name below the directory is a base name. -/
def Dir.baseNames : Dir → Bool
  | .unreadable _ => true
  | .listing files => files.baseNames
/-- Every entry name in and below the listing is a base name. -/
def Listing.baseNames : Listing → Bool
  | .nil => true
  | .file name rest => slashFree name && rest.baseNames
  | .dir name sub rest => slashFree name && (sub.baseNames && rest.baseNames)
end

/-- The event `e` of a walk addresses the remote path `p`: it is a create-folder
request for `p`, or it starts the upload whose header path is `p`. -/
def Event.addresses : Event → String → Prop
  | .http req _, p => req = createRequest p
  | .spawn file _ remoteFolder, p => uploadPath remoteFolder file = p
  | _, _ => False

/-- The event `e` is a create-folder request for `p` that the remote answered with
200 or 409, so that `createRemoteFolder` returned success. -/
def Event.created : Event → String → Prop
  | .http req (.ok resp), p =>
    req = createRequest p ∧ (resp.StatusCode = 200 ∨ resp.StatusCode = 409)
  | _, _ => False

/-- In the trace `t`, whatever is addressed strictly below a folder
`createPath q remote` comes after a successful creation of that folder. -/
def CreatedFirst (remote : String) (t : List Event) : Prop :=
  ∀ before e after, t = before ++ e :: after →
    ∀ q rest, e.addresses (createPath q remote ++ "/" ++ rest) →
      ∃ c ∈ before, c.created (createPath q remote)

/-- Every remote path addressed in the trace `t` lies below `remote`. -/
def Below (remote : String) (t : List Event) : Prop :=
  ∀ e ∈ t, ∀ p, e.addresses p → ∃ x, p = createPath x remote

/-- The event `e` addresses nothing strictly below a subfolder of `remote`. -/
def Shallow (remote : String) (e : Event) : Prop :=
  ∀ q rest, ¬ e.addresses (createPath q remote ++ "/" ++ rest)

/-! ## Strings -/

theorem slash_append_ne_empty (p : String) : "/" ++ p ≠ "" := by
  intro h
  have h1 := congrArg String.length h
  rw [String.length_append] at h1
  have h2 : "/".length = 1 := by decide
  have h3 : "".length = 0 := by decide
  omega

theorem scanMatches_eq_true_iff (target : String) (ms : List Match) :
    scanMatches target ms = true ↔ ∃ m ∈ ms, m.PathDisplay = target := by
  induction ms with
  | nil => simp [scanMatches]
  | cons m rest ih =>
    by_cases h : m.PathDisplay = target
    · simp [scanMatches, h]
    · simp [scanMatches, h, ih]

/-! ## The existence check -/

/-- C1 (as stated, refuted): for `remoteDir = "backups"` and `fileName = "a.txt"` the
string `search` compares display paths with is `/backups/a.txt`, with a leading
slash, and not `backups/a.txt`. -/
theorem searchTarget_backups_ne :
    searchTarget "backups" "a.txt" = "/backups/a.txt" ∧
      searchTarget "backups" "a.txt" ≠ "backups" ++ "/" ++ "a.txt" := by
  decide

/-- C1 (amended): the string `search` compares each match's display path with is the
bare `fileName` when `remoteDir` is empty and `"/" ++ remoteDir ++ "/" ++ fileName`
otherwise; `""`, `a.txt` gives `a.txt` and `backups`, `a.txt` gives `/backups/a.txt`. -/
theorem searchTarget_spec (remoteDir fileName : String) :
    searchTarget remoteDir fileName
        = (if remoteDir = "" then fileName else "/" ++ remoteDir ++ "/" ++ fileName)
      ∧ searchTarget "" "a.txt" = "a.txt"
      ∧ searchTarget "backups" "a.txt" = "/backups/a.txt" := by
  refine ⟨?_, by decide, by decide⟩
  unfold searchTarget
  by_cases h : remoteDir = ""
  · simp [h, searchScope]
  · simp [h, searchScope, slash_append_ne_empty]

/-- C2: `search` returns true exactly when `client.Do` completed with status 200, the
body decoded into `Matches`, and some match has a display path equal, as a string,
to the target path; on every completed answer with another status it returns false. -/
theorem search_true_iff {σ : Type} (w : World σ) (s : σ) (remoteDir fileName : String) :
    ((search w s remoteDir fileName).1 = true ↔
        ∃ resp s1 result, w.Do s (searchRequest remoteDir fileName) = (.ok resp, s1)
          ∧ resp.StatusCode = 200 ∧ w.decodeMatches resp.Body = .ok result
          ∧ ∃ m ∈ result.Matches, m.PathDisplay = searchTarget remoteDir fileName)
      ∧ (∀ resp s1, w.Do s (searchRequest remoteDir fileName) = (.ok resp, s1) →
          resp.StatusCode ≠ 200 → (search w s remoteDir fileName).1 = false) := by
  constructor
  · unfold search
    rcases hdo : w.Do s (searchRequest remoteDir fileName) with ⟨res, s1⟩
    cases res with
    | error err => simp [hdo]
    | ok resp =>
      by_cases hst : resp.StatusCode = 200
      · cases hdec : w.decodeMatches resp.Body with
        | error e => simp [hdo, hst, hdec]
        | ok result => simp [hdo, hst, hdec, scanMatches_eq_true_iff]
      · simp [hdo, hst]
  · intro resp s1 hdo hst
    unfold search
    simp [hdo, hst]

/-- Witness for C2: against a remote answering 200 with the match `/backups/a.txt`,
`search "backups" "a.txt"` is true; against a remote answering 500 it is false. -/
theorem search_true_iff_witness :
    (search replayWorld [.ok ⟨200, matchBody⟩] "backups" "a.txt").1 = true
      ∧ (search replayWorld [.ok ⟨500, matchBody⟩] "backups" "a.txt").1 = false :=
  ⟨(search_true_iff replayWorld [.ok ⟨200, matchBody⟩] "backups" "a.txt").1.2
      ⟨⟨200, matchBody⟩, [], ⟨[⟨"/backups/a.txt"⟩], false, 0⟩, rfl, rfl, rfl,
        ⟨"/backups/a.txt"⟩, by simp, by decide⟩,
    (search_true_iff replayWorld [.ok ⟨500, matchBody⟩] "backups" "a.txt").2
      ⟨500, matchBody⟩ [] rfl (by decide)⟩

/-! ## Single-file upload -/

theorem uploadCalls_append (t u : List Event) :
    uploadCalls (t ++ u) = uploadCalls t ++ uploadCalls u := by
  induction t with
  | nil => rfl
  | cons e rest ih =>
    cases e with
    | http req res =>
      by_cases h : req.url = UploadURL ++ "/upload"
      · simp [uploadCalls, h, ih]
      · simp [uploadCalls, h, ih]
    | log l m => simpa [uploadCalls] using ih
    | print l => simpa [uploadCalls] using ih
    | readDir q => simpa [uploadCalls] using ih
    | spawn a b c => simpa [uploadCalls] using ih

/-- The existence check never talks to the upload endpoint. -/
theorem uploadCalls_search {σ : Type} (w : World σ) (s : σ) (path file : String) :
    uploadCalls (search w s path file).2.2 = [] := by
  have hurl : ¬ (searchRequest path file).url = UploadURL ++ "/upload" := by
    show ¬ (URL ++ "/search" = UploadURL ++ "/upload")
    decide
  unfold search
  rcases hdo : w.Do s (searchRequest path file) with ⟨res, s1⟩
  cases res with
  | error err => simp [hdo, uploadCalls, hurl]
  | ok resp =>
    by_cases hst : resp.StatusCode = 200
    · cases hdec : w.decodeMatches resp.Body with
      | error e => simp [hdo, hst, hdec, uploadCalls, hurl]
      | ok result => simp [hdo, hst, hdec, uploadCalls, hurl]
    · simp [hdo, hst, uploadCalls, hurl]

/-- C3: when the local file opens and the existence check returns true, `upload_file`
returns `(nil, true)`, leaves the remote in the state the existence check left it
in, and sends no request to the upload endpoint. -/
theorem upload_file_skips_existing {σ : Type} (w : World σ) (s : σ)
    (fileName localDir remoteDir : String)
    (hopen : w.Open (localDir ++ "/" ++ fileName) = none)
    (hexists : (search w s remoteDir fileName).1 = true) :
    (upload_file w s fileName localDir remoteDir).1 = (none, true)
      ∧ (upload_file w s fileName localDir remoteDir).2.1 = (search w s remoteDir fileName).2.1
      ∧ uploadCalls (upload_file w s fileName localDir remoteDir).2.2 = [] := by
  have hu := uploadCalls_search w s remoteDir fileName
  unfold upload_file
  rcases hs : search w s remoteDir fileName with ⟨b, s1, t1⟩
  rw [hs] at hexists hu
  simp only at hexists hu
  subst hexists
  simp [hopen, uploadCalls_append, hu, uploadCalls]

/-- Witness for C3: the file `a.txt` is found at `/backups/a.txt`; nothing is uploaded. -/
theorem upload_file_skips_existing_witness :
    (upload_file replayWorld [.ok ⟨200, matchBody⟩] "a.txt" "docs" "backups").1 = (none, true)
      ∧ (upload_file replayWorld [.ok ⟨200, matchBody⟩] "a.txt" "docs" "backups").2.1
          = (search replayWorld [.ok ⟨200, matchBody⟩] "backups" "a.txt").2.1
      ∧ uploadCalls (upload_file replayWorld [.ok ⟨200, matchBody⟩] "a.txt" "docs" "backups").2.2
          = [] :=
  upload_file_skips_existing replayWorld [.ok ⟨200, matchBody⟩] "a.txt" "docs" "backups"
    rfl (by decide)

/-! ## Folder creation -/

/-- C4: if the remote answers 200 to the first create-folder request for a path and 409
to the second one, both calls of `createRemoteFolder` return `(nil, true)`; and
whenever the request completes, `createRemoteFolder` reports success exactly when
the status is 200 or 409. -/
theorem createRemoteFolder_idempotent {σ : Type} (w : World σ) (s s1 s2 : σ)
    (localName remoteParent : String) (first second : Response)
    (h1 : w.Do s (createRequest (createPath localName remoteParent)) = (.ok first, s1))
    (h2 : w.Do s1 (createRequest (createPath localName remoteParent)) = (.ok second, s2))
    (hfirst : first.StatusCode = 200) (hsecond : second.StatusCode = 409) :
    (createRemoteFolder w s localName remoteParent).1 = (none, true)
      ∧ (createRemoteFolder w (createRemoteFolder w s localName remoteParent).2.1
          localName remoteParent).1 = (none, true)
      ∧ (∀ (t t1 : σ) (name parent : String) (resp : Response),
          w.Do t (createRequest (createPath name parent)) = (.ok resp, t1) →
          ((createRemoteFolder w t name parent).1.2 = true
            ↔ resp.StatusCode = 200 ∨ resp.StatusCode = 409)) := by
  have e1 : createRemoteFolder w s localName remoteParent = ((none, true), s1,
      [.http (createRequest (createPath localName remoteParent)) (.ok first)]) := by
    unfold createRemoteFolder
    simp [h1, hfirst]
  have e2 : createRemoteFolder w s1 localName remoteParent = ((none, true), s2,
      [.http (createRequest (createPath localName remoteParent)) (.ok second)]) := by
    unfold createRemoteFolder
    simp [h2, hsecond]
  refine ⟨by rw [e1], by rw [e1]; simp only; rw [e2], ?_⟩
  intro t t1 name parent resp hdo
  unfold createRemoteFolder
  by_cases h : resp.StatusCode ≠ 200 ∧ resp.StatusCode ≠ 409
  · simp [hdo, h]
  · simp only [hdo, h]
    simp only [ite_false, true_iff]
    omega

/-- Witness for C4: the folder store, starting empty, answers 200 and then 409. -/
theorem createRemoteFolder_idempotent_witness :
    (createRemoteFolder folderStore [] "photos" "backups").1 = (none, true)
      ∧ (createRemoteFolder folderStore (createRemoteFolder folderStore [] "photos" "backups").2.1
          "photos" "backups").1 = (none, true)
      ∧ (∀ (t t1 : List ReqBody) (name parent : String) (resp : Response),
          folderStore.Do t (createRequest (createPath name parent)) = (.ok resp, t1) →
          ((createRemoteFolder folderStore t name parent).1.2 = true
            ↔ resp.StatusCode = 200 ∨ resp.StatusCode = 409)) :=
  createRemoteFolder_idempotent folderStore []
    [(createRequest (createPath "photos" "backups")).body]
    [(createRequest (createPath "photos" "backups")).body]
    "photos" "backups" ⟨200, "\x7b\x7d"⟩ ⟨409, errorBody⟩ (by simp [folderStore, createRequest])
    (by simp [folderStore, createRequest]) rfl rfl

/-! ## Status handling of the remote operations -/

/-- The function `upload_file` reports a completed upload answer whose status is not 200
as a failure whose error carries status and body. -/
theorem upload_file_fails_on_status {σ : Type} (w : World σ) (s : σ)
    (fileName localDir remoteDir : String) (resp : Response) (s2 : σ)
    (hopen : w.Open (localDir ++ "/" ++ fileName) = none)
    (hexists : (search w s remoteDir fileName).1 = false)
    (hdo : w.Do (search w s remoteDir fileName).2.1 (uploadRequest fileName localDir remoteDir)
      = (.ok resp, s2))
    (hst : resp.StatusCode ≠ 200) :
    (upload_file w s fileName localDir remoteDir).1 = (some (statusError resp), false) := by
  unfold upload_file
  rcases hs : search w s remoteDir fileName with ⟨b, s1, t1⟩
  rw [hs] at hexists hdo
  simp only at hexists hdo
  subst hexists
  simp [hopen, hdo, hst]

/-- The function `createRemoteFolder` reports a completed answer whose status is neither
200 nor 409 as a failure whose error carries status and body. -/
theorem createRemoteFolder_fails_on_status {σ : Type} (w : World σ) (s s1 : σ)
    (localName remoteParent : String) (resp : Response)
    (hdo : w.Do s (createRequest (createPath localName remoteParent)) = (.ok resp, s1))
    (hst : resp.StatusCode ≠ 200 ∧ resp.StatusCode ≠ 409) :
    (createRemoteFolder w s localName remoteParent).1 = (some (statusError resp), false) := by
  unfold createRemoteFolder
  simp [hdo, hst]

/-- The function `list` never looks at the status: whenever the answer completes and its
body decodes, the result is `(nil, true)`. -/
theorem list_ignores_status {σ : Type} (w : World σ) (s s1 : σ) (path : String)
    (resp : Response) (result : Folders)
    (hdo : w.Do s (listRequest path) = (.ok resp, s1))
    (hdec : w.decodeFolders resp.Body = .ok result) :
    (list w s path).1 = (none, true) := by
  unfold list
  simp [hdo, hdec]

/-- C9 (evaluation at the failing input): the remote answers the list request with
status 409 and a JSON error object; `list` returns `(nil, true)`, not a failure. -/
theorem list_succeeds_on_status_409 :
    (list replayWorld [.ok ⟨409, errorBody⟩] "missing").1 = (none, true)
      ∧ (list replayWorld [.ok ⟨409, errorBody⟩] "missing").2.2
          = [.http (listRequest "missing") (.ok ⟨409, errorBody⟩)] := by
  constructor <;> rfl

/-! ## Upload path against existence-check path -/

/-- Below the root the path `upload_file` writes and the path `search` looks for agree. -/
theorem uploadPath_eq_searchTarget {remoteDir : String} (fileName : String)
    (h : remoteDir ≠ "") : uploadPath remoteDir fileName = searchTarget remoteDir fileName := by
  simp [uploadPath, searchTarget, searchScope, h, slash_append_ne_empty]

/-- C10 (evaluation at the failing input `remoteDir = ""`): at the root `upload_file`
writes `"/" ++ fileName` into the header while `search` looks for the bare `fileName`,
which is a different string; a remote that reports the uploaded file at `/a.txt` is
answered with "does not exist". -/
theorem root_uploadPath_ne_searchTarget :
    (∀ fileName : String, uploadPath "" fileName = "/" ++ fileName
        ∧ searchTarget "" fileName = fileName
        ∧ uploadPath "" fileName ≠ searchTarget "" fileName)
      ∧ (search replayWorld [.ok ⟨200, rootMatchBody⟩] "" "a.txt").1 = false := by
  refine ⟨fun fileName => ?_, by decide⟩
  have h1 : uploadPath "" fileName = "/" ++ fileName := by simp [uploadPath]
  have h2 : searchTarget "" fileName = fileName := by simp [searchTarget, searchScope]
  refine ⟨h1, h2, ?_⟩
  rw [h1, h2]
  intro h
  have h3 := congrArg String.length h
  rw [String.length_append] at h3
  have h4 : "/".length = 1 := by decide
  omega

/-! ## The tree walk: counting and termination of the join -/

theorem Listing.length_eq (files : Listing) :
    files.length = files.fileNames.length + files.dirNames.length := by
  match files with
  | .nil => rfl
  | .file name rest =>
    have ih := Listing.length_eq rest
    simp only [Listing.length, Listing.fileNames, Listing.dirNames, List.length_cons, ih]
    omega
  | .dir name sub rest =>
    have ih := Listing.length_eq rest
    simp only [Listing.length, Listing.fileNames, Listing.dirNames, List.length_cons, ih]
    omega

theorem uploadTask_sent {σ : Type} (w : World σ) (s : σ) (t : Task) :
    (uploadTask w s t).sent = [signal t.file] := by
  unfold uploadTask
  rcases h : upload_file w s t.file t.localFolder t.remoteFolder with ⟨⟨err, ok⟩, s1, tr⟩
  cases ok <;> rfl

theorem sent_length {σ : Type} (w : World σ) (view : View σ) (ts : List Task) :
    (ts.flatMap (fun t => (uploadTask w (view t) t).sent)).length = ts.length := by
  induction ts with
  | nil => rfl
  | cons t rest ih =>
    rw [List.flatMap_cons, List.length_append, ih, uploadTask_sent]
    simp [Nat.add_comm]

mutual
theorem upload_folder_ret {σ : Type} (w : World σ) (view : View σ) (s : σ)
    (localFolder remoteFolder : String) (d : Dir) :
    (upload_folder w view s localFolder remoteFolder d).ret ≠ none := by
  match d with
  | .unreadable err => simp [upload_folder]
  | .listing files =>
    have h := upload_folder_loop_spec w view localFolder remoteFolder s (files.length : Int) files
    obtain ⟨h1, h2, h3⟩ := h
    unfold upload_folder
    simp only [h1, h2, h3, sent_length, true_and]
    rw [if_pos]
    · simp
    · rw [Listing.length_eq]; simp
theorem upload_folder_loop_spec {σ : Type} (w : World σ) (view : View σ)
    (localFolder remoteFolder : String) (s : σ) (numberOfFiles : Int) (files : Listing) :
    (upload_folder_loop w view localFolder remoteFolder s numberOfFiles files).returned = true
      ∧ (upload_folder_loop w view localFolder remoteFolder s numberOfFiles files).numberOfFiles
          = numberOfFiles - (files.dirNames.length : Int)
      ∧ (upload_folder_loop w view localFolder remoteFolder s numberOfFiles files).spawned
          = files.fileNames.map (fun f => ⟨f, localFolder, remoteFolder⟩) := by
  match files with
  | .nil => simp [upload_folder_loop, Listing.dirNames, Listing.fileNames]
  | .file name rest =>
    have ih := upload_folder_loop_spec w view localFolder remoteFolder s numberOfFiles rest
    simp [upload_folder_loop, Listing.dirNames, Listing.fileNames, ih]
  | .dir name sub rest =>
    unfold upload_folder_loop
    rcases hc : createRemoteFolder w s name remoteFolder with ⟨⟨err, ok⟩, s1, t1⟩
    cases ok with
    | true =>
      simp only
      have hr := upload_folder_ret w view s1 (localFolder ++ "/" ++ name)
        (remoteFolder ++ "/" ++ name) sub
      rcases hd : (upload_folder w view s1 (localFolder ++ "/" ++ name)
        (remoteFolder ++ "/" ++ name) sub).ret with _ | r
      · exact absurd hd hr
      · have ih := upload_folder_loop_spec w view localFolder remoteFolder
          (upload_folder w view s1 (localFolder ++ "/" ++ name)
            (remoteFolder ++ "/" ++ name) sub).state (numberOfFiles - 1) rest
        simp only [ih, Listing.dirNames, Listing.fileNames, List.length_cons]
        refine ⟨trivial, ?_, trivial⟩
        push_cast; ring
    | false =>
      have ih := upload_folder_loop_spec w view localFolder remoteFolder s1 (numberOfFiles - 1) rest
      simp only [ih, Listing.dirNames, Listing.fileNames, List.length_cons]
      refine ⟨trivial, ?_, trivial⟩
      push_cast; ring
end

/-- The walk of a readable directory, spelled out. -/
theorem upload_folder_listing {σ : Type} (w : World σ) (view : View σ) (s : σ)
    (localFolder remoteFolder : String) (files : Listing) :
    upload_folder w view s localFolder remoteFolder (.listing files)
      = ⟨some (none, true),
          (upload_folder_loop w view localFolder remoteFolder s (files.length : Int) files).state,
          .readDir localFolder ::
            (upload_folder_loop w view localFolder remoteFolder s (files.length : Int) files).trace,
          (files.fileNames.length : Int),
          files.fileNames.map (fun f => ⟨f, localFolder, remoteFolder⟩),
          (files.fileNames.map (fun f => (⟨f, localFolder, remoteFolder⟩ : Task))).map
            (fun t => uploadTask w (view t) t),
          files.fileNames.map signal,
          files.fileNames.length⟩ := by
  obtain ⟨h1, h2, h3⟩ :=
    upload_folder_loop_spec w view localFolder remoteFolder s (files.length : Int) files
  have hn : ((files.length : Int) - (files.dirNames.length : Int))
      = (files.fileNames.length : Int) := by
    rw [Listing.length_eq]; push_cast; ring
  have hsent : (files.fileNames.map (fun f => (⟨f, localFolder, remoteFolder⟩ : Task))).flatMap
      (fun t => (uploadTask w (view t) t).sent) = files.fileNames.map signal := by
    simp only [uploadTask_sent]
    induction files.fileNames with
    | nil => rfl
    | cons f rest ih => simp [List.flatMap_cons, ih]
  unfold upload_folder
  simp only [h1, h2, h3, hn, hsent, List.length_map, true_and, le_refl, if_true, Int.toNat_ofNat]

/-- The goroutines started at one level are one per non-directory entry. -/
theorem spawned_length_listing {σ : Type} (w : World σ) (view : View σ) (s : σ)
    (localFolder remoteFolder : String) (files : Listing) :
    (upload_folder w view s localFolder remoteFolder (.listing files)).spawned.length
      = files.fileNames.length := by
  rw [upload_folder_listing]
  simp

/-- C7: for every successfully read listing, the goroutines started at that level are
exactly one per non-directory entry (with that entry's name), and `numberOfFiles`
after the loop, hence the number of receive operations performed before returning,
is the number of non-directory entries; for a listing without subdirectories it is
the number of entries. -/
theorem upload_folder_dispatch_count {σ : Type} (w : World σ) (view : View σ) (s : σ)
    (localFolder remoteFolder : String) (files : Listing) :
    (upload_folder w view s localFolder remoteFolder (.listing files)).spawned
        = files.fileNames.map (fun f => ⟨f, localFolder, remoteFolder⟩)
      ∧ (upload_folder w view s localFolder remoteFolder (.listing files)).spawned.length
        = files.fileNames.length
      ∧ (upload_folder w view s localFolder remoteFolder (.listing files)).numberOfFiles
        = (files.fileNames.length : Int)
      ∧ (upload_folder w view s localFolder remoteFolder (.listing files)).received
        = files.fileNames.length
      ∧ (files.dirNames = [] →
          (upload_folder w view s localFolder remoteFolder (.listing files)).numberOfFiles
            = (files.length : Int)) := by
  rw [upload_folder_listing]
  refine ⟨rfl, by simp, rfl, rfl, ?_⟩
  intro h
  simp [Listing.length_eq, h]

/-! ## The tree walk: order of the remote calls -/

theorem list_split_slash (n x q rest : List Char) (hn : '/' ∉ n)
    (h : n ++ '/' :: x = q ++ '/' :: rest) :
    (q = n ∧ x = rest) ∨ ∃ q2, q = n ++ '/' :: q2 ∧ x = q2 ++ '/' :: rest := by
  induction n generalizing q with
  | nil =>
    cases q with
    | nil => left; simpa using h
    | cons c q1 =>
      right
      simp at h
      exact ⟨q1, by simp [← h.1], h.2⟩
  | cons a n1 ih =>
    cases q with
    | nil =>
      simp at h
      exact absurd h.1 (by intro h2; apply hn; simp [h2])
    | cons c q1 =>
      simp at h
      have hn1 : '/' ∉ n1 := fun h2 => hn (List.mem_cons_of_mem _ h2)
      rcases ih q1 hn1 h.2 with ⟨h1, h2⟩ | ⟨q2, h1, h2⟩
      · left; simp [h.1, h1, h2]
      · right; exact ⟨q2, by simp [h.1, h1], h2⟩

theorem list_no_slash (n q rest : List Char) (hn : '/' ∉ n) : n ≠ q ++ '/' :: rest := by
  intro h
  apply hn
  rw [h]
  simp

theorem slashFree_iff (name : String) : slashFree name = true ↔ '/' ∉ name.data := by
  simp [slashFree]

theorem createPath_data (name remote : String) :
    (createPath name remote).data = '/' :: (remote.data ++ '/' :: name.data) := by
  simp [createPath, String.data_append]

theorem createRequest_injective (p q : String) (h : createRequest p = createRequest q) :
    p = q := by
  unfold createRequest at h
  simp only [Request.mk.injEq, ReqBody.bytes.injEq, true_and] at h
  rw [String.ext_iff] at h ⊢
  simp only [String.data_append] at h
  have h1 := List.append_cancel_right h
  exact List.append_cancel_left h1


theorem createPath_deep_data (q remote rest : String) :
    (createPath q remote ++ "/" ++ rest).data
      = '/' :: (remote.data ++ '/' :: (q.data ++ '/' :: rest.data)) := by
  simp [createPath, String.data_append]

theorem createPath_ne_deep (n q remote rest : String) (hn : slashFree n = true) :
    createPath n remote ≠ createPath q remote ++ "/" ++ rest := by
  intro h
  rw [String.ext_iff, createPath_data, createPath_deep_data] at h
  simp only [List.cons.injEq, true_and, List.append_cancel_left_eq] at h
  exact list_no_slash _ _ _ ((slashFree_iff n).1 hn) h

theorem createdFirst_nil (remote : String) : CreatedFirst remote [] := by
  intro before e after h
  cases before <;> simp at h

theorem createdFirst_cons {remote : String} {e0 : Event} {t : List Event}
    (h0 : Shallow remote e0) (ht : CreatedFirst remote t) : CreatedFirst remote (e0 :: t) := by
  intro before e after h q rest he
  cases before with
  | nil =>
    simp only [List.nil_append, List.cons.injEq] at h
    rw [← h.1] at he
    exact absurd he (h0 q rest)
  | cons b before1 =>
    simp only [List.cons_append, List.cons.injEq] at h
    obtain ⟨c, hc, hcr⟩ := ht before1 e after h.2 q rest he
    exact ⟨c, List.mem_cons_of_mem _ hc, hcr⟩

theorem createdFirst_append {remote : String} {a b : List Event}
    (ha : CreatedFirst remote a) (hb : CreatedFirst remote b) : CreatedFirst remote (a ++ b) := by
  intro before e after h q rest he
  rcases List.append_eq_append_iff.1 h with ⟨a2, h1, h2⟩ | ⟨c2, h1, h2⟩
  · -- the event lies in `b`
    obtain ⟨c, hc, hcr⟩ := hb a2 e after h2 q rest he
    exact ⟨c, by rw [h1]; exact List.mem_append_right _ hc, hcr⟩
  · cases c2 with
    | nil =>
      simp only [List.nil_append] at h2
      obtain ⟨c, hc, _⟩ := hb [] e after (by simpa using h2.symm) q rest he
      simp at hc
    | cons x c3 =>
      simp only [List.cons_append, List.cons.injEq] at h2
      exact ha before e c3 (by rw [h1, h2.1]) q rest he

theorem shallow_spawn (file localFolder remote : String) (hn : slashFree file = true) :
    Shallow remote (.spawn file localFolder remote) := by
  intro q rest h
  simp only [Event.addresses] at h
  by_cases hr : remote = ""
  · subst hr
    rw [String.ext_iff, createPath_deep_data] at h
    simp only [uploadPath, if_true, String.data_append] at h
    simp only [List.singleton_append, List.nil_append, List.cons.injEq, true_and] at h
    exact list_no_slash _ [] _ ((slashFree_iff file).1 hn) (by simpa using h)
  · have h3 : uploadPath remote file = createPath file remote := by
      simp [uploadPath, createPath, hr]
    rw [h3] at h
    exact createPath_ne_deep _ _ _ _ hn h

theorem shallow_create (name remote : String) (res : Except GoError Response)
    (hn : slashFree name = true) :
    Shallow remote (.http (createRequest (createPath name remote)) res) := by
  intro q rest h
  simp only [Event.addresses] at h
  exact createPath_ne_deep _ _ _ _ hn (createRequest_injective _ _ h)

theorem shallow_log (remote level msg : String) : Shallow remote (.log level msg) := by
  intro q rest h
  simp [Event.addresses] at h

theorem shallow_readDir (remote path : String) : Shallow remote (.readDir path) := by
  intro q rest h
  simp [Event.addresses] at h

/-- What `createRemoteFolder` leaves in the trace. -/
theorem createRemoteFolder_trace {σ : Type} (w : World σ) (s : σ) (name remote : String) :
    ∃ res, (createRemoteFolder w s name remote).2.2
        = [.http (createRequest (createPath name remote)) res]
      ∧ ((createRemoteFolder w s name remote).1.2 = true →
          (Event.http (createRequest (createPath name remote)) res).created
            (createPath name remote)) := by
  unfold createRemoteFolder
  rcases hdo : w.Do s (createRequest (createPath name remote)) with ⟨res, s1⟩
  cases res with
  | error err => exact ⟨.error err, by simp [hdo]⟩
  | ok resp =>
    refine ⟨.ok resp, ?_⟩
    by_cases h : resp.StatusCode ≠ 200 ∧ resp.StatusCode ≠ 409
    · simp [hdo, h]
    · simp only [hdo, h, if_false, true_and, Event.created, forall_true_left]
      omega


theorem createPath_sub (x name remote : String) :
    createPath x (remote ++ "/" ++ name) = createPath (name ++ "/" ++ x) remote := by
  rw [String.ext_iff]
  simp [createPath, String.data_append]

theorem below_cons {remote : String} {e0 : Event} {t : List Event}
    (h0 : ∀ p, e0.addresses p → ∃ x, p = createPath x remote) (ht : Below remote t) :
    Below remote (e0 :: t) := by
  intro e he p hp
  rcases List.mem_cons.1 he with h | h
  · subst h; exact h0 p hp
  · exact ht e h p hp

theorem below_append {remote : String} {a b : List Event}
    (ha : Below remote a) (hb : Below remote b) : Below remote (a ++ b) := by
  intro e he p hp
  rcases List.mem_append.1 he with h | h
  · exact ha e h p hp
  · exact hb e h p hp

theorem below_sub {remote name : String} {t : List Event}
    (ht : Below (remote ++ "/" ++ name) t) : Below remote t := by
  intro e he p hp
  obtain ⟨x, hx⟩ := ht e he p hp
  exact ⟨name ++ "/" ++ x, by rw [hx, createPath_sub]⟩

theorem createdFirst_sub {remote name : String} {c : Event} {t : List Event}
    (hn : slashFree name = true) (hc : c.created (createPath name remote))
    (hs : Shallow remote c) (hb : Below (remote ++ "/" ++ name) t)
    (ht : CreatedFirst (remote ++ "/" ++ name) t) : CreatedFirst remote (c :: t) := by
  intro before e after h q rest he
  cases before with
  | nil =>
    simp only [List.nil_append, List.cons.injEq] at h
    rw [← h.1] at he
    exact absurd he (hs q rest)
  | cons b before1 =>
    simp only [List.cons_append, List.cons.injEq] at h
    obtain ⟨hbc, ht2⟩ := h
    subst hbc
    have hmem : e ∈ t := by rw [ht2]; simp
    obtain ⟨x, hx⟩ := hb e hmem _ he
    have hx2 := hx
    rw [String.ext_iff, createPath_deep_data, createPath_data] at hx2
    simp only [String.data_append, List.cons.injEq, true_and, List.append_assoc,
      List.append_cancel_left_eq] at hx2
    have hx3 : name.data ++ '/' :: x.data = q.data ++ '/' :: rest.data := by
      simpa using hx2.symm
    rcases list_split_slash _ _ _ _ ((slashFree_iff name).1 hn) hx3 with ⟨h1, _⟩ | ⟨q2, h1, h2⟩
    · have hq : q = name := String.ext h1
      subst hq
      exact ⟨c, List.mem_cons_self _ _, hc⟩
    · have hp1 : createPath q remote ++ "/" ++ rest
          = createPath (String.mk q2) (remote ++ "/" ++ name) ++ "/" ++ rest := by
        rw [String.ext_iff]
        simp [createPath, String.data_append, h1]
      have hp2 : createPath q remote = createPath (String.mk q2) (remote ++ "/" ++ name) := by
        rw [String.ext_iff]
        simp [createPath, String.data_append, h1]
      rw [hp1] at he
      obtain ⟨c2, hc2, hcr⟩ := ht before1 e after ht2 (String.mk q2) rest he
      exact ⟨c2, List.mem_cons_of_mem _ hc2, by rw [hp2]; exact hcr⟩

theorem addresses_spawn_below (file localFolder remote : String) (hr : remote ≠ "") :
    ∀ p, (Event.spawn file localFolder remote).addresses p → ∃ x, p = createPath x remote := by
  intro p hp
  simp only [Event.addresses] at hp
  exact ⟨file, by rw [← hp]; simp [uploadPath, createPath, hr]⟩

theorem addresses_create_below (name remote : String) (res : Except GoError Response) :
    ∀ p, (Event.http (createRequest (createPath name remote)) res).addresses p →
      ∃ x, p = createPath x remote := by
  intro p hp
  simp only [Event.addresses] at hp
  exact ⟨name, (createRequest_injective _ _ hp).symm⟩

theorem append_slash_ne_empty (remote name : String) : remote ++ "/" ++ name ≠ "" := by
  intro h
  have h1 := congrArg String.length h
  rw [String.length_append, String.length_append] at h1
  have h2 : "/".length = 1 := by decide
  have h3 : "".length = 0 := by decide
  omega


/-- The loop at a subdirectory whose remote folder was created. -/
theorem upload_folder_loop_dir_ok {σ : Type} (w : World σ) (view : View σ)
    (localFolder remoteFolder : String) (s : σ) (numberOfFiles : Int)
    (name : String) (sub : Dir) (rest : Listing)
    (h : (createRemoteFolder w s name remoteFolder).1.2 = true) :
    upload_folder_loop w view localFolder remoteFolder s numberOfFiles (.dir name sub rest)
      = ⟨(upload_folder_loop w view localFolder remoteFolder
            (upload_folder w view (createRemoteFolder w s name remoteFolder).2.1
              (localFolder ++ "/" ++ name) (remoteFolder ++ "/" ++ name) sub).state
            (numberOfFiles - 1) rest).returned,
          (upload_folder_loop w view localFolder remoteFolder
            (upload_folder w view (createRemoteFolder w s name remoteFolder).2.1
              (localFolder ++ "/" ++ name) (remoteFolder ++ "/" ++ name) sub).state
            (numberOfFiles - 1) rest).state,
          (createRemoteFolder w s name remoteFolder).2.2
            ++ (upload_folder w view (createRemoteFolder w s name remoteFolder).2.1
              (localFolder ++ "/" ++ name) (remoteFolder ++ "/" ++ name) sub).trace
            ++ (upload_folder_loop w view localFolder remoteFolder
              (upload_folder w view (createRemoteFolder w s name remoteFolder).2.1
                (localFolder ++ "/" ++ name) (remoteFolder ++ "/" ++ name) sub).state
              (numberOfFiles - 1) rest).trace,
          (upload_folder_loop w view localFolder remoteFolder
            (upload_folder w view (createRemoteFolder w s name remoteFolder).2.1
              (localFolder ++ "/" ++ name) (remoteFolder ++ "/" ++ name) sub).state
            (numberOfFiles - 1) rest).numberOfFiles,
          (upload_folder_loop w view localFolder remoteFolder
            (upload_folder w view (createRemoteFolder w s name remoteFolder).2.1
              (localFolder ++ "/" ++ name) (remoteFolder ++ "/" ++ name) sub).state
            (numberOfFiles - 1) rest).spawned⟩ := by
  rw [upload_folder_loop]
  rcases hc : createRemoteFolder w s name remoteFolder with ⟨⟨err, ok⟩, s1, t1⟩
  rw [hc] at h
  simp only at h
  subst h
  simp only
  have hr := upload_folder_ret w view s1 (localFolder ++ "/" ++ name)
    (remoteFolder ++ "/" ++ name) sub
  rcases hd : (upload_folder w view s1 (localFolder ++ "/" ++ name)
    (remoteFolder ++ "/" ++ name) sub).ret with _ | r
  · exact absurd hd hr
  · rfl

/-- The loop at a subdirectory whose remote folder could not be created. -/
theorem upload_folder_loop_dir_fail {σ : Type} (w : World σ) (view : View σ)
    (localFolder remoteFolder : String) (s : σ) (numberOfFiles : Int)
    (name : String) (sub : Dir) (rest : Listing)
    (h : (createRemoteFolder w s name remoteFolder).1.2 = false) :
    upload_folder_loop w view localFolder remoteFolder s numberOfFiles (.dir name sub rest)
      = ⟨(upload_folder_loop w view localFolder remoteFolder
            (createRemoteFolder w s name remoteFolder).2.1 (numberOfFiles - 1) rest).returned,
          (upload_folder_loop w view localFolder remoteFolder
            (createRemoteFolder w s name remoteFolder).2.1 (numberOfFiles - 1) rest).state,
          (createRemoteFolder w s name remoteFolder).2.2
            ++ [.log "info" ("Couldn't create a remote folder " ++ remoteFolder ++ "/" ++ name),
                .log "warn" ((createRemoteFolder w s name remoteFolder).1.1.getD "<nil>")]
            ++ (upload_folder_loop w view localFolder remoteFolder
              (createRemoteFolder w s name remoteFolder).2.1 (numberOfFiles - 1) rest).trace,
          (upload_folder_loop w view localFolder remoteFolder
            (createRemoteFolder w s name remoteFolder).2.1 (numberOfFiles - 1) rest).numberOfFiles,
          (upload_folder_loop w view localFolder remoteFolder
            (createRemoteFolder w s name remoteFolder).2.1 (numberOfFiles - 1) rest).spawned⟩ := by
  rw [upload_folder_loop]
  rcases hc : createRemoteFolder w s name remoteFolder with ⟨⟨err, ok⟩, s1, t1⟩
  rw [hc] at h
  simp only at h
  subst h
  rfl

mutual
theorem upload_folder_below {σ : Type} (w : World σ) (view : View σ) (s : σ)
    (localFolder remoteFolder : String) (hr : remoteFolder ≠ "") (d : Dir) :
    Below remoteFolder (upload_folder w view s localFolder remoteFolder d).trace := by
  match d with
  | .unreadable err =>
    intro e he p hp
    simp only [upload_folder, List.mem_singleton] at he
    subst he
    simp [Event.addresses] at hp
  | .listing files =>
    rw [upload_folder_listing]
    refine below_cons ?_ (upload_folder_loop_below w view localFolder remoteFolder hr s _ files)
    intro p hp
    simp [Event.addresses] at hp
theorem upload_folder_loop_below {σ : Type} (w : World σ) (view : View σ)
    (localFolder remoteFolder : String) (hr : remoteFolder ≠ "") (s : σ) (numberOfFiles : Int)
    (files : Listing) :
    Below remoteFolder
      (upload_folder_loop w view localFolder remoteFolder s numberOfFiles files).trace := by
  match files with
  | .nil =>
    intro e he
    simp [upload_folder_loop] at he
  | .file name rest =>
    rw [upload_folder_loop]
    exact below_cons (addresses_spawn_below name localFolder remoteFolder hr)
      (upload_folder_loop_below w view localFolder remoteFolder hr s numberOfFiles rest)
  | .dir name sub rest =>
    obtain ⟨res, htr, _⟩ := createRemoteFolder_trace w s name remoteFolder
    have hc : Below remoteFolder (createRemoteFolder w s name remoteFolder).2.2 := by
      rw [htr]
      refine below_cons (addresses_create_below name remoteFolder res) ?_
      intro e he
      simp at he
    cases hok : (createRemoteFolder w s name remoteFolder).1.2 with
    | true =>
      rw [upload_folder_loop_dir_ok w view localFolder remoteFolder s numberOfFiles name sub rest hok]
      refine below_append (below_append hc (@below_sub remoteFolder name _ ?_)) ?_
      · exact upload_folder_below w view _ (localFolder ++ "/" ++ name)
          (remoteFolder ++ "/" ++ name) (append_slash_ne_empty remoteFolder name) sub
      · exact upload_folder_loop_below w view localFolder remoteFolder hr _ _ rest
    | false =>
      rw [upload_folder_loop_dir_fail w view localFolder remoteFolder s numberOfFiles name sub rest
        hok]
      refine below_append (below_append hc ?_) ?_
      · intro e he p hp
        simp only [List.mem_cons, List.mem_singleton, List.not_mem_nil, or_false] at he
        rcases he with h | h <;> subst h <;> simp [Event.addresses] at hp
      · exact upload_folder_loop_below w view localFolder remoteFolder hr _ _ rest
end


mutual
theorem upload_folder_createdFirst {σ : Type} (w : World σ) (view : View σ) (s : σ)
    (localFolder remoteFolder : String) (d : Dir) (hd : d.baseNames = true) :
    CreatedFirst remoteFolder (upload_folder w view s localFolder remoteFolder d).trace := by
  match d with
  | .unreadable err =>
    simp only [upload_folder]
    exact createdFirst_cons (shallow_readDir _ _) (createdFirst_nil _)
  | .listing files =>
    rw [upload_folder_listing]
    simp only [Dir.baseNames] at hd
    exact createdFirst_cons (shallow_readDir _ _)
      (upload_folder_loop_createdFirst w view localFolder remoteFolder s _ files hd)
theorem upload_folder_loop_createdFirst {σ : Type} (w : World σ) (view : View σ)
    (localFolder remoteFolder : String) (s : σ) (numberOfFiles : Int)
    (files : Listing) (hf : files.baseNames = true) :
    CreatedFirst remoteFolder
      (upload_folder_loop w view localFolder remoteFolder s numberOfFiles files).trace := by
  match files with
  | .nil =>
    simp only [upload_folder_loop]
    exact createdFirst_nil _
  | .file name rest =>
    simp only [Listing.baseNames, Bool.and_eq_true] at hf
    rw [upload_folder_loop]
    exact createdFirst_cons (shallow_spawn name localFolder remoteFolder hf.1)
      (upload_folder_loop_createdFirst w view localFolder remoteFolder s numberOfFiles rest hf.2)
  | .dir name sub rest =>
    simp only [Listing.baseNames, Bool.and_eq_true] at hf
    obtain ⟨hn, hsub, hrest⟩ := hf
    obtain ⟨res, htr, hcr⟩ := createRemoteFolder_trace w s name remoteFolder
    cases hok : (createRemoteFolder w s name remoteFolder).1.2 with
    | true =>
      rw [upload_folder_loop_dir_ok w view localFolder remoteFolder s numberOfFiles name sub rest hok,
        htr]
      refine createdFirst_append ?_ ?_
      · exact createdFirst_sub hn (hcr hok) (shallow_create name remoteFolder res hn)
          (upload_folder_below w view _ (localFolder ++ "/" ++ name)
            (remoteFolder ++ "/" ++ name) (append_slash_ne_empty remoteFolder name) sub)
          (upload_folder_createdFirst w view _ (localFolder ++ "/" ++ name)
            (remoteFolder ++ "/" ++ name) sub hsub)
      · exact upload_folder_loop_createdFirst w view localFolder remoteFolder _ _ rest hrest
    | false =>
      rw [upload_folder_loop_dir_fail w view localFolder remoteFolder s numberOfFiles name sub rest
        hok, htr]
      refine createdFirst_append ?_ ?_
      · exact createdFirst_cons (shallow_create name remoteFolder res hn)
          (createdFirst_cons (shallow_log _ _ _)
            (createdFirst_cons (shallow_log _ _ _) (createdFirst_nil _)))
      · exact upload_folder_loop_createdFirst w view localFolder remoteFolder _ _ rest hrest
end


/-- C5: in the trace of `upload_folder` on any local tree whose entry names are base
names, every event that addresses a remote path strictly below a folder
`"/" ++ remoteFolder ++ "/" ++ q` (a create-folder request for a descendant
directory, or the start of an upload into that folder or a descendant) is preceded
by a create-folder request for exactly that folder which the remote answered with
200 or 409. -/
theorem create_before_descendants {σ : Type} (w : World σ) (view : View σ) (s : σ)
    (localFolder remoteFolder : String) (d : Dir) (hd : d.baseNames = true)
    (before after : List Event) (e : Event)
    (htrace : (upload_folder w view s localFolder remoteFolder d).trace = before ++ e :: after)
    (q rest : String)
    (he : e.addresses (createPath q remoteFolder ++ "/" ++ rest)) :
    ∃ c ∈ before, c.created (createPath q remoteFolder) :=
  upload_folder_createdFirst w view s localFolder remoteFolder d hd before e after htrace q rest he

/-- Witness for C5: walking `A/B/C` into `backups` against the folder store, the request
creating `/backups/A/B/C` comes after a successful creation of `/backups/A/B`. -/
theorem create_before_descendants_witness :
    ∃ c ∈ [Event.readDir "src", .spawn "top.txt" "src" "backups",
        .http (createRequest "/backups/A") (.ok ⟨200, "\x7b\x7d"⟩),
        .readDir "src/A", .spawn "a.txt" "src/A" "backups/A",
        .http (createRequest "/backups/A/B") (.ok ⟨200, "\x7b\x7d"⟩),
        .readDir "src/A/B", .spawn "b.txt" "src/A/B" "backups/A/B"],
      c.created (createPath "A/B" "backups") :=
  create_before_descendants folderStore (fun _ => []) [] "src" "backups" nestedABC (by decide)
    _ [.readDir "src/A/B/C", .spawn "c.txt" "src/A/B/C" "backups/A/B/C"]
    (.http (createRequest "/backups/A/B/C") (.ok ⟨200, "\x7b\x7d"⟩))
    (by simp [nestedABC, upload_folder, upload_folder_loop, createRemoteFolder, folderStore,
      createRequest, createPath, Listing.length, uploadTask_sent, URL])
    "A/B" "C" (by simp [Event.addresses, createPath])


/-! ## The tree walk: a subdirectory whose remote folder cannot be created -/

/-- The loop over a concatenated listing is the loop over the first part followed by
the loop over the second part, started where the first one stopped. -/
theorem upload_folder_loop_append {σ : Type} (w : World σ) (view : View σ)
    (localFolder remoteFolder : String) (s : σ) (numberOfFiles : Int) (pre rest : Listing) :
    upload_folder_loop w view localFolder remoteFolder s numberOfFiles (pre.append rest)
      = ⟨(upload_folder_loop w view localFolder remoteFolder
            (upload_folder_loop w view localFolder remoteFolder s numberOfFiles pre).state
            (upload_folder_loop w view localFolder remoteFolder s numberOfFiles pre).numberOfFiles
            rest).returned,
          (upload_folder_loop w view localFolder remoteFolder
            (upload_folder_loop w view localFolder remoteFolder s numberOfFiles pre).state
            (upload_folder_loop w view localFolder remoteFolder s numberOfFiles pre).numberOfFiles
            rest).state,
          (upload_folder_loop w view localFolder remoteFolder s numberOfFiles pre).trace
            ++ (upload_folder_loop w view localFolder remoteFolder
              (upload_folder_loop w view localFolder remoteFolder s numberOfFiles pre).state
              (upload_folder_loop w view localFolder remoteFolder s numberOfFiles pre).numberOfFiles
              rest).trace,
          (upload_folder_loop w view localFolder remoteFolder
            (upload_folder_loop w view localFolder remoteFolder s numberOfFiles pre).state
            (upload_folder_loop w view localFolder remoteFolder s numberOfFiles pre).numberOfFiles
            rest).numberOfFiles,
          (upload_folder_loop w view localFolder remoteFolder s numberOfFiles pre).spawned
            ++ (upload_folder_loop w view localFolder remoteFolder
              (upload_folder_loop w view localFolder remoteFolder s numberOfFiles pre).state
              (upload_folder_loop w view localFolder remoteFolder s numberOfFiles pre).numberOfFiles
              rest).spawned⟩ := by
  match pre with
  | .nil => simp [Listing.append, upload_folder_loop]
  | .file name pre1 =>
    have ih := upload_folder_loop_append w view localFolder remoteFolder s numberOfFiles pre1 rest
    simp only [Listing.append]
    rw [upload_folder_loop, ih]
    simp [upload_folder_loop]
  | .dir name sub pre1 =>
    simp only [Listing.append]
    cases hok : (createRemoteFolder w s name remoteFolder).1.2 with
    | true =>
      rw [upload_folder_loop_dir_ok w view localFolder remoteFolder s numberOfFiles name sub _ hok,
        upload_folder_loop_dir_ok w view localFolder remoteFolder s numberOfFiles name sub _ hok,
        upload_folder_loop_append w view localFolder remoteFolder _ _ pre1 rest]
      simp
    | false =>
      rw [upload_folder_loop_dir_fail w view localFolder remoteFolder s numberOfFiles name sub _ hok,
        upload_folder_loop_dir_fail w view localFolder remoteFolder s numberOfFiles name sub _ hok,
        upload_folder_loop_append w view localFolder remoteFolder _ _ pre1 rest]
      simp

/-- The loop visits every entry: each file is handed to a goroutine and for each
subdirectory a create-folder request is sent. -/
theorem upload_folder_loop_visits {σ : Type} (w : World σ) (view : View σ)
    (localFolder remoteFolder : String) (s : σ) (numberOfFiles : Int) (files : Listing) :
    (∀ f ∈ files.fileNames, Event.spawn f localFolder remoteFolder
        ∈ (upload_folder_loop w view localFolder remoteFolder s numberOfFiles files).trace)
      ∧ (∀ d ∈ files.dirNames, ∃ res, Event.http (createRequest (createPath d remoteFolder)) res
        ∈ (upload_folder_loop w view localFolder remoteFolder s numberOfFiles files).trace) := by
  match files with
  | .nil => simp [Listing.fileNames, Listing.dirNames]
  | .file name rest =>
    obtain ⟨ih1, ih2⟩ :=
      upload_folder_loop_visits w view localFolder remoteFolder s numberOfFiles rest
    rw [upload_folder_loop]
    simp only [Listing.fileNames, Listing.dirNames, List.mem_cons]
    constructor
    · rintro f (hf | hf)
      · left; rw [hf]
      · right; exact ih1 f hf
    · intro d hd
      obtain ⟨res, hres⟩ := ih2 d hd
      exact ⟨res, Or.inr hres⟩
  | .dir name sub rest =>
    obtain ⟨res, htr, _⟩ := createRemoteFolder_trace w s name remoteFolder
    simp only [Listing.fileNames, Listing.dirNames, List.mem_cons]
    cases hok : (createRemoteFolder w s name remoteFolder).1.2 with
    | true =>
      rw [upload_folder_loop_dir_ok w view localFolder remoteFolder s numberOfFiles name sub _ hok,
        htr]
      obtain ⟨ih1, ih2⟩ := upload_folder_loop_visits w view localFolder remoteFolder
        (upload_folder w view (createRemoteFolder w s name remoteFolder).2.1
          (localFolder ++ "/" ++ name) (remoteFolder ++ "/" ++ name) sub).state
        (numberOfFiles - 1) rest
      constructor
      · intro f hf
        exact List.mem_append_right _ (ih1 f hf)
      · rintro d (hd | hd)
        · exact ⟨res, by rw [hd]; simp⟩
        · obtain ⟨res2, hres⟩ := ih2 d hd
          exact ⟨res2, List.mem_append_right _ hres⟩
    | false =>
      rw [upload_folder_loop_dir_fail w view localFolder remoteFolder s numberOfFiles name sub _
        hok, htr]
      obtain ⟨ih1, ih2⟩ := upload_folder_loop_visits w view localFolder remoteFolder
        (createRemoteFolder w s name remoteFolder).2.1 (numberOfFiles - 1) rest
      constructor
      · intro f hf
        exact List.mem_append_right _ (ih1 f hf)
      · rintro d (hd | hd)
        · exact ⟨res, by rw [hd]; simp⟩
        · obtain ⟨res2, hres⟩ := ih2 d hd
          exact ⟨res2, List.mem_append_right _ hres⟩


theorem Listing.length_append_dir (pre post : Listing) (name : String) (sub : Dir) :
    (pre.append (.dir name sub post)).length = pre.length + post.length + 1 := by
  match pre with
  | .nil => simp [Listing.append, Listing.length]
  | .file f pre1 =>
    have ih := Listing.length_append_dir pre1 post name sub
    simp only [Listing.append, Listing.length, ih]
    omega
  | .dir f d pre1 =>
    have ih := Listing.length_append_dir pre1 post name sub
    simp only [Listing.append, Listing.length, ih]
    omega

/-- The loop over a listing whose entry `name` cannot be created remotely. -/
theorem upload_folder_loop_failed_dir {σ : Type} (w : World σ) (view : View σ)
    (localFolder remoteFolder : String) (s : σ) (n : Int) (pre post : Listing) (name : String)
    (sub : Dir)
    (hfail : (createRemoteFolder w
      (upload_folder_loop w view localFolder remoteFolder s n pre).state name remoteFolder).1.2
        = false) :
    upload_folder_loop w view localFolder remoteFolder s n (pre.append (.dir name sub post))
      = ⟨(upload_folder_loop w view localFolder remoteFolder
            (createRemoteFolder w (upload_folder_loop w view localFolder remoteFolder s n pre).state
              name remoteFolder).2.1
            ((upload_folder_loop w view localFolder remoteFolder s n pre).numberOfFiles - 1)
            post).returned,
          (upload_folder_loop w view localFolder remoteFolder
            (createRemoteFolder w (upload_folder_loop w view localFolder remoteFolder s n pre).state
              name remoteFolder).2.1
            ((upload_folder_loop w view localFolder remoteFolder s n pre).numberOfFiles - 1)
            post).state,
          (upload_folder_loop w view localFolder remoteFolder s n pre).trace
            ++ ((createRemoteFolder w
                  (upload_folder_loop w view localFolder remoteFolder s n pre).state
                  name remoteFolder).2.2
              ++ [.log "info" ("Couldn't create a remote folder " ++ remoteFolder ++ "/" ++ name),
                  .log "warn" ((createRemoteFolder w
                    (upload_folder_loop w view localFolder remoteFolder s n pre).state
                    name remoteFolder).1.1.getD "<nil>")])
            ++ (upload_folder_loop w view localFolder remoteFolder
              (createRemoteFolder w
                (upload_folder_loop w view localFolder remoteFolder s n pre).state
                name remoteFolder).2.1
              ((upload_folder_loop w view localFolder remoteFolder s n pre).numberOfFiles - 1)
              post).trace,
          (upload_folder_loop w view localFolder remoteFolder
            (createRemoteFolder w (upload_folder_loop w view localFolder remoteFolder s n pre).state
              name remoteFolder).2.1
            ((upload_folder_loop w view localFolder remoteFolder s n pre).numberOfFiles - 1)
            post).numberOfFiles,
          (upload_folder_loop w view localFolder remoteFolder s n pre).spawned
            ++ (upload_folder_loop w view localFolder remoteFolder
              (createRemoteFolder w
                (upload_folder_loop w view localFolder remoteFolder s n pre).state
                name remoteFolder).2.1
              ((upload_folder_loop w view localFolder remoteFolder s n pre).numberOfFiles - 1)
              post).spawned⟩ := by
  rw [upload_folder_loop_append, upload_folder_loop_dir_fail w view localFolder remoteFolder _ _
    name sub post hfail]
  simp

/-- C6: when the create-folder call for the subdirectory entry `name` fails, the walk of
the listing `pre ++ [name] ++ post` consists of the walk of `pre`, the one failed
create-folder request with its two log lines, and the walk of `post`: nothing is read,
created or uploaded for the contents `sub` of that subdirectory (the whole result is
the same for any other contents), while every file of `post` is handed to a goroutine
and every subdirectory of `post` gets its create-folder request. -/
theorem upload_folder_skips_failed_subtree {σ : Type} (w : World σ) (view : View σ) (s : σ)
    (localFolder remoteFolder : String) (pre post : Listing) (name : String) (sub : Dir)
    (A B : Loop σ) (c : Outcome σ (Option GoError × Bool))
    (hA : A = upload_folder_loop w view localFolder remoteFolder s
      ((pre.append (.dir name sub post)).length : Int) pre)
    (hc : c = createRemoteFolder w A.state name remoteFolder)
    (hB : B = upload_folder_loop w view localFolder remoteFolder c.2.1 (A.numberOfFiles - 1) post)
    (hfail : c.1.2 = false) :
    (upload_folder w view s localFolder remoteFolder
        (.listing (pre.append (.dir name sub post)))).trace
        = .readDir localFolder :: (A.trace
            ++ (c.2.2 ++ [.log "info"
                  ("Couldn't create a remote folder " ++ remoteFolder ++ "/" ++ name),
                .log "warn" (c.1.1.getD "<nil>")])
            ++ B.trace)
      ∧ (∃ res, c.2.2 = [.http (createRequest (createPath name remoteFolder)) res])
      ∧ (∀ sub2 : Dir, upload_folder w view s localFolder remoteFolder
            (.listing (pre.append (.dir name sub2 post)))
          = upload_folder w view s localFolder remoteFolder
            (.listing (pre.append (.dir name sub post))))
      ∧ (∀ f ∈ post.fileNames, Event.spawn f localFolder remoteFolder ∈ B.trace)
      ∧ (∀ d ∈ post.dirNames,
          ∃ res, Event.http (createRequest (createPath d remoteFolder)) res ∈ B.trace) := by
  subst hA
  subst hc
  subst hB
  have hloop : ∀ sub2 : Dir, upload_folder_loop w view localFolder remoteFolder s
      ((pre.append (.dir name sub post)).length : Int) (pre.append (.dir name sub2 post))
      = upload_folder_loop w view localFolder remoteFolder s
      ((pre.append (.dir name sub post)).length : Int) (pre.append (.dir name sub post)) := by
    intro sub2
    rw [upload_folder_loop_failed_dir w view localFolder remoteFolder s _ pre post name sub2 hfail,
      upload_folder_loop_failed_dir w view localFolder remoteFolder s _ pre post name sub hfail]
  refine ⟨?_, ?_, ?_, ?_, ?_⟩
  · rw [upload_folder_listing,
      upload_folder_loop_failed_dir w view localFolder remoteFolder s _ pre post name sub hfail]
  · obtain ⟨res, htr, _⟩ := createRemoteFolder_trace w
      (upload_folder_loop w view localFolder remoteFolder s
        ((pre.append (.dir name sub post)).length : Int) pre).state name remoteFolder
    exact ⟨res, htr⟩
  · intro sub2
    have hlen : (pre.append (.dir name sub2 post)).length
        = (pre.append (.dir name sub post)).length := by
      rw [Listing.length_append_dir, Listing.length_append_dir]
    unfold upload_folder
    rw [hlen, hloop sub2]
  · exact (upload_folder_loop_visits w view localFolder remoteFolder _ _ post).1
  · exact (upload_folder_loop_visits w view localFolder remoteFolder _ _ post).2


/-- Witness for C6: `/backups/bad` cannot be created (status 500); its file `x.txt` is
never touched, and the later siblings `z.txt` and `good` are processed. -/
theorem upload_folder_skips_failed_subtree_witness :
    (upload_folder pickyStore (fun _ => []) [] "src" "backups"
        (.listing ((Listing.file "a.txt" .nil).append (.dir "bad"
          (.listing (.file "x.txt" .nil))
          (.file "z.txt" (.dir "good" (.listing .nil) .nil)))))).trace
      = [.readDir "src", .spawn "a.txt" "src" "backups",
          .http (createRequest "/backups/bad") (.ok ⟨500, errorBody⟩),
          .log "info" "Couldn't create a remote folder backups/bad",
          .log "warn" (statusError ⟨500, errorBody⟩),
          .spawn "z.txt" "src" "backups",
          .http (createRequest "/backups/good") (.ok ⟨200, "\x7b\x7d"⟩),
          .readDir "src/good"]
      ∧ ∀ sub2 : Dir, upload_folder pickyStore (fun _ => []) [] "src" "backups"
            (.listing ((Listing.file "a.txt" .nil).append (.dir "bad" sub2
              (.file "z.txt" (.dir "good" (.listing .nil) .nil)))))
          = upload_folder pickyStore (fun _ => []) [] "src" "backups"
            (.listing ((Listing.file "a.txt" .nil).append (.dir "bad"
              (.listing (.file "x.txt" .nil))
              (.file "z.txt" (.dir "good" (.listing .nil) .nil))))) := by
  have h := upload_folder_skips_failed_subtree pickyStore (fun _ => []) [] "src" "backups"
    (.file "a.txt" .nil) (.file "z.txt" (.dir "good" (.listing .nil) .nil)) "bad"
    (.listing (.file "x.txt" .nil)) _ _ _ rfl rfl rfl
    (by simp [upload_folder_loop, createRemoteFolder, pickyStore, createRequest, createPath])
  refine ⟨?_, h.2.2.1⟩
  rw [h.1]
  simp [upload_folder, upload_folder_loop, createRemoteFolder, pickyStore, folderStore,
    createRequest, createPath, Listing.length, Listing.append, uploadTask_sent, URL, statusError]

/-! ## The tree walk: what the goroutines do, and what the walk does with it -/

/-- What one goroutine does with the result of its own `upload_file` call. -/
theorem uploadTask_spec {σ : Type} (w : World σ) (st : σ) (t : Task) :
    (uploadTask w st t).task = t
      ∧ (uploadTask w st t).result = (upload_file w st t.file t.localFolder t.remoteFolder).1
      ∧ (uploadTask w st t).effects
        = (upload_file w st t.file t.localFolder t.remoteFolder).2.2
          ++ (if (upload_file w st t.file t.localFolder t.remoteFolder).1.2 = true then []
              else [.log "info" ("Coldn't upload file " ++ t.file ++ " to remote folder "
                      ++ t.remoteFolder ++ "."),
                    .log "warn"
                      ((upload_file w st t.file t.localFolder t.remoteFolder).1.1.getD "<nil>")])
      ∧ (uploadTask w st t).sent = [signal t.file] := by
  unfold uploadTask
  rcases h : upload_file w st t.file t.localFolder t.remoteFolder with ⟨⟨err, ok⟩, s1, tr⟩
  cases ok <;> simp

/-- The existence check does not open local files. -/
theorem search_sabotage {σ : Type} (w : World σ) (fails : String → Bool) (err : GoError)
    (s : σ) (path file : String) :
    search (sabotage w fails err) s path file = search w s path file := rfl

/-- A file that cannot be opened: `upload_file` fails before any request. -/
theorem upload_file_open_error {σ : Type} (w : World σ) (s : σ)
    (fileName localPath remotePath : String) (err : GoError)
    (h : w.Open (localPath ++ "/" ++ fileName) = some err) :
    upload_file w s fileName localPath remotePath = ((some err, false), s, []) := by
  unfold upload_file
  simp [h]

/-- Making other files unreadable does not change what `upload_file` does for a file. -/
theorem upload_file_sabotage {σ : Type} (w : World σ) (fails : String → Bool) (err : GoError)
    (s : σ) (fileName localPath remotePath : String)
    (h : fails (localPath ++ "/" ++ fileName) = false) :
    upload_file (sabotage w fails err) s fileName localPath remotePath
      = upload_file w s fileName localPath remotePath := by
  unfold upload_file
  rw [search_sabotage]
  simp [sabotage, h]

/-- The goroutine of a file in a world where the files picked by `fails` are unreadable. -/
theorem uploadTask_sabotage {σ : Type} (w : World σ) (fails : String → Bool) (err : GoError)
    (st : σ) (t : Task) :
    uploadTask (sabotage w fails err) st t
      = (if fails (t.localFolder ++ "/" ++ t.file) = true then
          ⟨t, (some err, false),
            [.log "info" ("Coldn't upload file " ++ t.file ++ " to remote folder "
              ++ t.remoteFolder ++ "."), .log "warn" err],
            [signal t.file]⟩
        else uploadTask w st t) := by
  by_cases h : fails (t.localFolder ++ "/" ++ t.file) = true
  · have ho : (sabotage w fails err).Open (t.localFolder ++ "/" ++ t.file) = some err := by
      simp [sabotage, h]
    rw [if_pos h]
    unfold uploadTask
    rw [upload_file_open_error _ _ _ _ _ err ho]
    simp
  · rw [if_neg h]
    unfold uploadTask
    rw [upload_file_sabotage w fails err st t.file t.localFolder t.remoteFolder (by simpa using h)]

theorem createRemoteFolder_congr {σ : Type} (w w2 : World σ) (hDo : w2.Do = w.Do) (s : σ)
    (localFolder remoteFolder : String) :
    createRemoteFolder w2 s localFolder remoteFolder
      = createRemoteFolder w s localFolder remoteFolder := by
  unfold createRemoteFolder
  rw [hDo]

mutual
/-- The walking goroutine depends on the remote only: neither on what the uploads
observe nor on which local files open. -/
theorem upload_folder_walker {σ : Type} (w w2 : World σ) (view view2 : View σ)
    (hDo : w2.Do = w.Do) (s : σ) (localFolder remoteFolder : String) (d : Dir) :
    (upload_folder w2 view2 s localFolder remoteFolder d).ret
        = (upload_folder w view s localFolder remoteFolder d).ret
      ∧ (upload_folder w2 view2 s localFolder remoteFolder d).state
        = (upload_folder w view s localFolder remoteFolder d).state
      ∧ (upload_folder w2 view2 s localFolder remoteFolder d).trace
        = (upload_folder w view s localFolder remoteFolder d).trace
      ∧ (upload_folder w2 view2 s localFolder remoteFolder d).numberOfFiles
        = (upload_folder w view s localFolder remoteFolder d).numberOfFiles
      ∧ (upload_folder w2 view2 s localFolder remoteFolder d).spawned
        = (upload_folder w view s localFolder remoteFolder d).spawned
      ∧ (upload_folder w2 view2 s localFolder remoteFolder d).sent
        = (upload_folder w view s localFolder remoteFolder d).sent
      ∧ (upload_folder w2 view2 s localFolder remoteFolder d).received
        = (upload_folder w view s localFolder remoteFolder d).received := by
  match d with
  | .unreadable err => simp [upload_folder]
  | .listing files =>
    have h := upload_folder_loop_walker w w2 view view2 hDo localFolder remoteFolder s
      (files.length : Int) files
    rw [upload_folder_listing, upload_folder_listing, h]
    simp
theorem upload_folder_loop_walker {σ : Type} (w w2 : World σ) (view view2 : View σ)
    (hDo : w2.Do = w.Do) (localFolder remoteFolder : String) (s : σ) (numberOfFiles : Int)
    (files : Listing) :
    upload_folder_loop w2 view2 localFolder remoteFolder s numberOfFiles files
      = upload_folder_loop w view localFolder remoteFolder s numberOfFiles files := by
  match files with
  | .nil => simp [upload_folder_loop]
  | .file name rest =>
    have ih := upload_folder_loop_walker w w2 view view2 hDo localFolder remoteFolder s
      numberOfFiles rest
    simp only [upload_folder_loop, ih]
  | .dir name sub rest =>
    have hc := createRemoteFolder_congr w w2 hDo s name remoteFolder
    cases hok : (createRemoteFolder w s name remoteFolder).1.2 with
    | true =>
      obtain ⟨_, hst, htr, _⟩ := upload_folder_walker w w2 view view2 hDo
        (createRemoteFolder w s name remoteFolder).2.1 (localFolder ++ "/" ++ name)
        (remoteFolder ++ "/" ++ name) sub
      have ih := upload_folder_loop_walker w w2 view view2 hDo localFolder remoteFolder
        (upload_folder w view (createRemoteFolder w s name remoteFolder).2.1
          (localFolder ++ "/" ++ name) (remoteFolder ++ "/" ++ name) sub).state
        (numberOfFiles - 1) rest
      rw [upload_folder_loop_dir_ok w2 view2 localFolder remoteFolder s numberOfFiles name sub rest
          (by rw [hc]; exact hok),
        upload_folder_loop_dir_ok w view localFolder remoteFolder s numberOfFiles name sub rest hok,
        hc, hst, htr, ih]
    | false =>
      have ih := upload_folder_loop_walker w w2 view view2 hDo localFolder remoteFolder
        (createRemoteFolder w s name remoteFolder).2.1 (numberOfFiles - 1) rest
      rw [upload_folder_loop_dir_fail w2 view2 localFolder remoteFolder s numberOfFiles name sub
          rest (by rw [hc]; exact hok),
        upload_folder_loop_dir_fail w view localFolder remoteFolder s numberOfFiles name sub rest
          hok,
        hc, ih]
end

/-- C8: for every successfully read listing, `upload_folder` returns `(nil, true)`; the
goroutines of the level are run one per file, each on its own task; each of them
calls `upload_file` on its own arguments, logs two lines exactly when that call
failed, and sends exactly one message whether it succeeded or failed; the
messages sent, the goroutines started and the receive operations are equal in
number. If the files of an arbitrary subset are made to fail (they cannot be opened),
the runs of those files are failures that still send their message, the run of every
other file is exactly what it is without those failures, and the walk (result,
trace, remote state, messages, receive operations) is unchanged. The walk is also
the same whatever the uploads observe. -/
theorem upload_folder_joins_all {σ : Type} (w : World σ) (view : View σ) (s : σ)
    (localFolder remoteFolder : String) (files : Listing) :
    (upload_folder w view s localFolder remoteFolder (.listing files)).ret = some (none, true)
      ∧ (upload_folder w view s localFolder remoteFolder (.listing files)).runs
        = (files.fileNames.map (fun f => (⟨f, localFolder, remoteFolder⟩ : Task))).map
            (fun t => uploadTask w (view t) t)
      ∧ (∀ (t : Task) (st : σ),
          (uploadTask w st t).task = t
          ∧ (uploadTask w st t).result
            = (upload_file w st t.file t.localFolder t.remoteFolder).1
          ∧ (uploadTask w st t).effects
            = (upload_file w st t.file t.localFolder t.remoteFolder).2.2
              ++ (if (upload_file w st t.file t.localFolder t.remoteFolder).1.2 = true then []
                  else [.log "info" ("Coldn't upload file " ++ t.file ++ " to remote folder "
                          ++ t.remoteFolder ++ "."),
                        .log "warn" ((upload_file w st t.file t.localFolder
                          t.remoteFolder).1.1.getD "<nil>")])
          ∧ (uploadTask w st t).sent = [signal t.file])
      ∧ (upload_folder w view s localFolder remoteFolder (.listing files)).sent
        = (upload_folder w view s localFolder remoteFolder (.listing files)).runs.flatMap
            (fun r => r.sent)
      ∧ (upload_folder w view s localFolder remoteFolder (.listing files)).sent.length
        = (upload_folder w view s localFolder remoteFolder (.listing files)).spawned.length
      ∧ (upload_folder w view s localFolder remoteFolder (.listing files)).received
        = (upload_folder w view s localFolder remoteFolder (.listing files)).sent.length
      ∧ (∀ (fails : String → Bool) (err : GoError),
          (upload_folder (sabotage w fails err) view s localFolder remoteFolder
              (.listing files)).ret = some (none, true)
          ∧ (upload_folder (sabotage w fails err) view s localFolder remoteFolder
              (.listing files)).runs
            = (files.fileNames.map (fun f => (⟨f, localFolder, remoteFolder⟩ : Task))).map
                (fun t => if fails (t.localFolder ++ "/" ++ t.file) = true then
                    ⟨t, (some err, false),
                      [.log "info" ("Coldn't upload file " ++ t.file ++ " to remote folder "
                        ++ t.remoteFolder ++ "."), .log "warn" err],
                      [signal t.file]⟩
                  else uploadTask w (view t) t)
          ∧ (upload_folder (sabotage w fails err) view s localFolder remoteFolder
              (.listing files)).sent
            = (upload_folder w view s localFolder remoteFolder (.listing files)).sent
          ∧ (upload_folder (sabotage w fails err) view s localFolder remoteFolder
              (.listing files)).received
            = (upload_folder w view s localFolder remoteFolder (.listing files)).received
          ∧ (upload_folder (sabotage w fails err) view s localFolder remoteFolder
              (.listing files)).trace
            = (upload_folder w view s localFolder remoteFolder (.listing files)).trace
          ∧ (upload_folder (sabotage w fails err) view s localFolder remoteFolder
              (.listing files)).state
            = (upload_folder w view s localFolder remoteFolder (.listing files)).state)
      ∧ (∀ view2 : View σ,
          (upload_folder w view2 s localFolder remoteFolder (.listing files)).ret
            = (upload_folder w view s localFolder remoteFolder (.listing files)).ret
          ∧ (upload_folder w view2 s localFolder remoteFolder (.listing files)).trace
            = (upload_folder w view s localFolder remoteFolder (.listing files)).trace
          ∧ (upload_folder w view2 s localFolder remoteFolder (.listing files)).state
            = (upload_folder w view s localFolder remoteFolder (.listing files)).state
          ∧ (upload_folder w view2 s localFolder remoteFolder (.listing files)).sent
            = (upload_folder w view s localFolder remoteFolder (.listing files)).sent
          ∧ (upload_folder w view2 s localFolder remoteFolder (.listing files)).received
            = (upload_folder w view s localFolder remoteFolder (.listing files)).received) := by
  refine ⟨?_, ?_, ?_, ?_, ?_, ?_, ?_, ?_⟩
  · rw [upload_folder_listing]
  · rw [upload_folder_listing]
  · intro t st
    exact uploadTask_spec w st t
  · rw [upload_folder_listing]
    simp only [List.flatMap_map, uploadTask_sent]
    induction files.fileNames with
    | nil => rfl
    | cons f rest ih => simp [List.flatMap_cons, ← ih]
  · rw [upload_folder_listing]
    simp
  · rw [upload_folder_listing]
    simp
  · intro fails err
    obtain ⟨hret, hst, htr, _, _, hsent, hrec⟩ := upload_folder_walker w (sabotage w fails err)
      view view rfl s localFolder remoteFolder (.listing files)
    refine ⟨?_, ?_, hsent, hrec, htr, hst⟩
    · rw [upload_folder_listing]
    · rw [upload_folder_listing]
      simp only [uploadTask_sabotage]
  · intro view2
    obtain ⟨hret, hst, htr, _, _, hsent, hrec⟩ := upload_folder_walker w w view view2 rfl s
      localFolder remoteFolder (.listing files)
    exact ⟨hret, htr, hst, hsent, hrec⟩

/-- Witness for C8: of five files, `c.txt` is made unreadable; its run fails, the
other four succeed, five messages are sent, five are received and the walk
returns `(nil, true)`. -/
theorem upload_folder_joins_all_witness :
    (upload_folder (sabotage calmWorld (fun path => decide (path = "src/c.txt"))
        "permission denied") calmView [] "src" "backups" (.listing fiveFiles)).ret
        = some (none, true)
      ∧ (upload_folder (sabotage calmWorld (fun path => decide (path = "src/c.txt"))
          "permission denied") calmView [] "src" "backups" (.listing fiveFiles)).runs.map
            (fun r => (r.task.file, r.result, r.sent.length))
        = [("a.txt", (none, true), 1), ("b.txt", (none, true), 1),
            ("c.txt", (some "permission denied", false), 1),
            ("d.txt", (none, true), 1), ("e.txt", (none, true), 1)]
      ∧ (upload_folder (sabotage calmWorld (fun path => decide (path = "src/c.txt"))
          "permission denied") calmView [] "src" "backups" (.listing fiveFiles)).received
        = 5 := by
  have h := upload_folder_joins_all calmWorld calmView [] "src" "backups" fiveFiles
  obtain ⟨hret, hruns, _, hrec, _⟩ :=
    h.2.2.2.2.2.2.1 (fun path => decide (path = "src/c.txt")) "permission denied"
  refine ⟨hret, ?_, ?_⟩
  · rw [hruns]
    decide
  · rw [hrec, h.2.2.2.2.2.1, h.2.2.2.2.1,
      spawned_length_listing calmWorld calmView [] "src" "backups" fiveFiles]
    rfl

end Dropboxer
